import Mathlib

/-!
Shallow embedding of the audio-reactive LED pipeline.

The repository has two source files:
* src/main.py — class variant: an AudioVisualizer object holding strip and
  audio configuration, a decibel loudness extractor, a brightness mapper, a
  producer callback writing into a single chunk slot guarded by an event, a
  consumer thread rendering the latest chunk, and a run method with shutdown
  handling.
* src/light.py — script variant: a gradient colour policy, a per-callback
  render, a WS281x set_leds adapter, and a try/finally shutdown that blanks
  the strip.

Python floats are idealised as real numbers for the signal path of main.py
(the decibel computation needs logarithms) and as rationals for the purely
arithmetic colour policy of light.py, so that concrete colour values can be
evaluated.  Python's int() truncates toward zero; it is embedded as pyInt.
Fallible operations (a division whose denominator can be zero, construction
that the spec says may reject its arguments) are embedded with Option/Except.
-/

open scoped Classical

/-- The error kind that the design document requires construction to raise on
an invalid floor/ceiling pair.  No such class exists in src/main.py; the type
is introduced here so that the construction claim can be stated. -/
inductive ConfigurationError where
  | floorNotBelowCeiling
deriving DecidableEq

/-- Python's int() applied to a float: truncation toward zero. -/
def pyInt {K : Type} [LinearOrderedField K] [FloorRing K] (x : K) : ℤ :=
  if 0 ≤ x then ⌊x⌋ else ⌈x⌉

/-- The state of an AudioVisualizer object from src/main.py: the thirteen
constructor parameters stored by __init__ (lines 33-47) followed by the
mutable run state it initialises (lines 49-54).  The strip and stream handles
are external resources; the strip's received frames are returned by the
functions below as explicit traces instead. -/
structure AudioVisualizer where
  led_count : ℕ
  led_pin : ℕ
  led_freq_hz : ℕ
  led_dma : ℕ
  led_invert : Bool
  led_brightness : ℕ
  led_channel : ℕ
  led_strip : ℕ
  sample_rate : ℕ
  chunk_size : ℕ
  min_db : ℝ
  max_db : ℝ
  sensitivity : ℝ
  audio_data : List ℝ
  audio_event : Bool
  running : Bool

/-- AudioVisualizer.__init__ (src/main.py lines 11-54).  The Python
constructor only stores its arguments and initialises the mutable fields; it
contains no validation and no raise statement, so the embedding always
returns ok.  The Except codomain records that the construction step is where
the design document expects a ConfigurationError to be raised. -/
def AudioVisualizer.init (led_count led_pin led_freq_hz led_dma : ℕ)
    (led_invert : Bool) (led_brightness led_channel led_strip : ℕ)
    (sample_rate chunk_size : ℕ) (min_db max_db sensitivity : ℝ) :
    Except ConfigurationError AudioVisualizer :=
  Except.ok
    { led_count := led_count
      led_pin := led_pin
      led_freq_hz := led_freq_hz
      led_dma := led_dma
      led_invert := led_invert
      led_brightness := led_brightness
      led_channel := led_channel
      led_strip := led_strip
      sample_rate := sample_rate
      chunk_size := chunk_size
      min_db := min_db
      max_db := max_db
      sensitivity := sensitivity
      audio_data := []
      audio_event := false
      running := true }

/-- np.sqrt(np.mean(audio_chunk ** 2)) from src/main.py line 68: the
root-mean-square of a chunk (np.mean is the sum divided by the length). -/
noncomputable def rmsOf (audio_chunk : List ℝ) : ℝ :=
  Real.sqrt ((audio_chunk.map (fun x => x ^ 2)).sum / audio_chunk.length)

/-- AudioVisualizer.get_decibel_level (src/main.py lines 56-75).
np.any(audio_chunk) is true exactly when some sample is nonzero. -/
noncomputable def AudioVisualizer.get_decibel_level (v : AudioVisualizer)
    (audio_chunk : List ℝ) : ℝ :=
  if ∃ x ∈ audio_chunk, x ≠ 0 then
    let p_ref : ℝ := 20e-6
    let rms := rmsOf audio_chunk
    if rms > 0 then
      max v.min_db (20 * Real.logb 10 (rms / p_ref))
    else
      v.min_db
  else
    v.min_db

/-- AudioVisualizer.map_brightness (src/main.py lines 77-89).  Python raises
ZeroDivisionError when max_db - min_db is zero; that outcome is embedded as
none. -/
noncomputable def AudioVisualizer.map_brightness (v : AudioVisualizer)
    (db : ℝ) : Option ℤ :=
  let clamped_db := max v.min_db (min v.max_db db)
  if v.max_db - v.min_db = 0 then none
  else some (pyInt ((clamped_db - v.min_db) / (v.max_db - v.min_db) * 255))

/-- AudioVisualizer.audio_callback (src/main.py lines 91-106).  The status
argument is truthy when the stream reports an error.  Returns the updated
object state together with the log lines printed.  On a truthy status the
chunk is dropped: nothing is stored and the event is not set. -/
def AudioVisualizer.audio_callback (v : AudioVisualizer) (indata : List ℝ)
    (status : Bool) : AudioVisualizer × List String :=
  if status then
    (v, ["Error in audio stream"])
  else
    ({ v with audio_data := indata, audio_event := true }, [])

/-- One frame sent to the strip by the consumer: the per-pixel triples of
arguments passed to ws.Color. -/
def Frame : Type := List (ℤ × ℤ × ℤ)

/-- One wake of the update_leds consumer loop (src/main.py lines 108-124),
entered when the event the loop waits on has been set: the event is cleared,
the running flag is re-checked, and if a chunk is buffered the frame
Color(0, brightness, 0) replicated over all pixels is shown.  Returns the
updated state and the frames committed during this wake.  A ZeroDivisionError
inside map_brightness would kill the thread before any commit, so that case
yields no frame. -/
noncomputable def AudioVisualizer.update_leds_step (v : AudioVisualizer) :
    AudioVisualizer × List Frame :=
  let v1 := { v with audio_event := false }
  if v.running = false then (v1, [])
  else if v.audio_data.length > 0 then
    match v.map_brightness (v.get_decibel_level v.audio_data) with
    | some brightness =>
        (v1, [List.replicate v.led_count ((0 : ℤ), brightness, 0)])
    | none => (v1, [])
  else (v1, [])

/-- The two ways the main loop of AudioVisualizer.run (src/main.py lines
148-163) can be left: KeyboardInterrupt, or any other exception caught by
the bare except Exception handler. -/
inductive TermCause where
  | keyboardInterrupt
  | genericError
deriving DecidableEq

/-- The shutdown handling of AudioVisualizer.run (src/main.py lines 150-163).
The except Exception branch only prints the error: no state change and no
frame.  The except KeyboardInterrupt branch clears the running flag, sets the
event to release the consumer, stops the stream, and blanks the strip with
Color(0, 0, 0) on every pixel followed by show.  Returns the updated state
and the frames committed by the handler. -/
def AudioVisualizer.run_on_termination (v : AudioVisualizer) :
    TermCause → AudioVisualizer × List Frame
  | TermCause.genericError => (v, [])
  | TermCause.keyboardInterrupt =>
      ({ v with running := false, audio_event := true },
        [List.replicate v.led_count ((0 : ℤ), 0, 0)])

/-- SENSITIVITY from src/light.py line 75. -/
def SENSITIVITY : ℚ := 100

/-- LED_COUNT from src/light.py line 72. -/
def LED_COUNT : ℕ := 30

/-- calculate_color (src/light.py lines 93-117), with the module constant
SENSITIVITY generalised to an explicit first argument.  Returns the (r, g, b)
tuple. -/
def calculate_color (sens amplitude : ℚ) : ℤ × ℤ × ℤ :=
  if amplitude < sens / 3 then
    let g := pyInt (255 * amplitude / (sens / 3))
    (0, g, 255 - g)
  else if amplitude < 2 * sens / 3 then
    (pyInt (255 * (amplitude - sens / 3) / (sens / 3)), 255, 0)
  else
    (255, 255 - pyInt (255 * (amplitude - 2 * sens / 3) / (sens / 3)), 0)

/-- rpi_ws281x.Color (external collaborator; semantics documented by the
library): packs red into bits 16-23, green into bits 8-15 and blue into bits
0-7 of one machine word. -/
def ws_Color (red green blue : ℕ) : ℕ :=
  red * 2 ^ 16 + green * 2 ^ 8 + blue

/-- set_leds (src/light.py lines 119-131), WS281x branch: for every (r, g, b)
in the enumerated led_data the call setPixelColor(i, Color(g, r, b)) is made;
the list of (index, packed colour) call arguments is returned. -/
def set_leds (led_data : List (ℕ × ℕ × ℕ)) : List (ℕ × ℕ) :=
  led_data.enum.map (fun ic => (ic.1, ws_Color ic.2.2.1 ic.2.1 ic.2.2.2))

/-- The finally block of src/light.py lines 197-206 (WS281x branch): executed
on every exit path regardless of how the with-block terminated, it issues
setPixelColor(i, Color(0, 0, 0)) for every pixel index and shows.  Returns
the (index, packed colour) call arguments. -/
def light_shutdown_calls : TermCause → List (ℕ × ℕ) :=
  fun _ => (List.range LED_COUNT).map (fun i => (i, ws_Color 0 0 0))

/-- The visualizer built by __main__ of src/main.py (lines 165-185):
led_count 300, pin 18, 800 kHz, DMA 10, no invert, brightness 255, channel 0,
GRB strip type (the opaque library constant is abstracted as 0), 44100 Hz,
chunk 512, min_db 40, max_db 90, sensitivity 200, with the fresh mutable
state set by __init__. -/
noncomputable def visualizer : AudioVisualizer :=
  { led_count := 300
    led_pin := 18
    led_freq_hz := 800000
    led_dma := 10
    led_invert := false
    led_brightness := 255
    led_channel := 0
    led_strip := 0
    sample_rate := 44100
    chunk_size := 512
    min_db := 40
    max_db := 90
    sensitivity := 200
    audio_data := []
    audio_event := false
    running := true }

/-- Helper lemmas about the embedded arithmetic. -/
theorem pyInt_of_nonneg {K : Type} [LinearOrderedField K] [FloorRing K]
    {x : K} (h : 0 ≤ x) : pyInt x = ⌊x⌋ :=
  if_pos h

theorem pyInt_intCast {K : Type} [LinearOrderedField K] [FloorRing K]
    (m : ℤ) (h : 0 ≤ m) : pyInt ((m : K)) = m := by
  rw [pyInt_of_nonneg (by exact_mod_cast h), Int.floor_intCast]

theorem pyInt_mono {K : Type} [LinearOrderedField K] [FloorRing K]
    {x y : K} (h : x ≤ y) : pyInt x ≤ pyInt y := by
  unfold pyInt
  by_cases hx : 0 ≤ x
  · rw [if_pos hx, if_pos (hx.trans h)]
    exact Int.floor_mono h
  · rw [if_neg hx]
    by_cases hy : 0 ≤ y
    · rw [if_pos hy]
      calc ⌈x⌉ ≤ 0 := Int.ceil_le.mpr (by exact_mod_cast (le_of_not_le hx))
        _ ≤ ⌊y⌋ := Int.floor_nonneg.mpr hy
    · rw [if_neg hy]
      exact Int.ceil_mono h

theorem pyInt_nonneg {K : Type} [LinearOrderedField K] [FloorRing K]
    {x : K} (h : 0 ≤ x) : 0 ≤ pyInt x := by
  rw [pyInt_of_nonneg h]
  exact Int.floor_nonneg.mpr h

theorem pyInt_le_of_le_intCast {K : Type} [LinearOrderedField K] [FloorRing K]
    {x : K} {m : ℤ} (h0 : 0 ≤ x) (h : x ≤ (m : K)) : pyInt x ≤ m := by
  rw [pyInt_of_nonneg h0]
  calc ⌊x⌋ ≤ ⌊(m : K)⌋ := Int.floor_mono h
    _ = m := Int.floor_intCast m

theorem rmsOf_pos {chunk : List ℝ} (h : ∃ x ∈ chunk, x ≠ 0) :
    0 < rmsOf chunk := by
  obtain ⟨x, hx, hxne⟩ := h
  have hlen : 0 < chunk.length := List.length_pos_of_mem hx
  have hx2 : x ^ 2 ∈ chunk.map (fun y => y ^ 2) :=
    List.mem_map_of_mem _ hx
  have hnn : ∀ a ∈ chunk.map (fun y => y ^ 2), (0 : ℝ) ≤ a := by
    intro a ha
    obtain ⟨y, _, rfl⟩ := List.mem_map.mp ha
    exact sq_nonneg y
  have hsum : x ^ 2 ≤ (chunk.map (fun y => y ^ 2)).sum :=
    List.single_le_sum hnn _ hx2
  have hx2pos : 0 < x ^ 2 :=
    lt_of_le_of_ne (sq_nonneg x) (Ne.symm (pow_ne_zero 2 hxne))
  have hsumpos : 0 < (chunk.map (fun y => y ^ 2)).sum := hx2pos.trans_le hsum
  have hq : 0 < (chunk.map (fun y => y ^ 2)).sum / (chunk.length : ℝ) :=
    div_pos hsumpos (by exact_mod_cast hlen)
  exact Real.sqrt_pos.mpr hq

theorem rmsOf_replicate {n : ℕ} {a : ℝ} (hn : 0 < n) (ha : 0 ≤ a) :
    rmsOf (List.replicate n a) = a := by
  unfold rmsOf
  rw [List.map_replicate, List.sum_replicate, List.length_replicate,
    nsmul_eq_mul]
  have hcast : (n : ℝ) ≠ 0 := by exact_mod_cast hn.ne'
  rw [mul_div_cancel_left₀ _ hcast]
  exact Real.sqrt_sq ha

theorem get_decibel_level_replicate (v : AudioVisualizer) {n : ℕ} {a : ℝ}
    (hn : 0 < n) (ha : 0 < a) :
    v.get_decibel_level (List.replicate n a) =
      max v.min_db (20 * Real.logb 10 (a / 20e-6)) := by
  have hex : ∃ x ∈ List.replicate n a, x ≠ 0 :=
    ⟨a, List.mem_replicate.mpr ⟨hn.ne', rfl⟩, ha.ne'⟩
  have hrms : rmsOf (List.replicate n a) = a := rmsOf_replicate hn ha.le
  unfold AudioVisualizer.get_decibel_level
  rw [if_pos hex]
  simp only [hrms]
  rw [if_pos ha]

/-- C1: for every audio chunk, get_decibel_level returns exactly the floor
min_db when all samples are zero or the RMS is zero, and otherwise returns
max(min_db, 20 * log10(rms / 20e-6)); in the latter case the argument of the
logarithm is strictly positive, so log is never evaluated at zero and the
extractor is total. -/
theorem C1_decibel_extractor_spec (v : AudioVisualizer) (chunk : List ℝ) :
    ((∀ x ∈ chunk, x = 0) → v.get_decibel_level chunk = v.min_db) ∧
    (rmsOf chunk = 0 → v.get_decibel_level chunk = v.min_db) ∧
    ((∃ x ∈ chunk, x ≠ 0) →
      0 < rmsOf chunk / 20e-6 ∧
      v.get_decibel_level chunk =
        max v.min_db (20 * Real.logb 10 (rmsOf chunk / 20e-6))) := by
  refine ⟨?_, ?_, ?_⟩
  · intro hall
    have hno : ¬ ∃ x ∈ chunk, x ≠ 0 := by
      push_neg
      exact hall
    unfold AudioVisualizer.get_decibel_level
    rw [if_neg hno]
  · intro hz
    by_cases hex : ∃ x ∈ chunk, x ≠ 0
    · exact absurd hz (rmsOf_pos hex).ne'
    · unfold AudioVisualizer.get_decibel_level
      rw [if_neg hex]
  · intro hex
    have hpos := rmsOf_pos hex
    refine ⟨div_pos hpos (by norm_num), ?_⟩
    unfold AudioVisualizer.get_decibel_level
    rw [if_pos hex]
    show (if rmsOf chunk > 0 then
        max v.min_db (20 * Real.logb 10 (rmsOf chunk / 20e-6))
      else v.min_db) = _
    rw [if_pos hpos]

/-- Witness for C1 at the chunk [1] of the __main__ visualizer. -/
theorem C1_decibel_extractor_spec_witness :
    visualizer.get_decibel_level [1] =
      max visualizer.min_db (20 * Real.logb 10 (rmsOf [1] / 20e-6)) :=
  ((C1_decibel_extractor_spec visualizer [1]).2.2
    ⟨1, by simp, one_ne_zero⟩).2

/-- C6 (amended): for constant chunks of amplitudes 0 < a1 < a2 the decibel
loudness is monotone non-decreasing, and strictly increasing exactly when the
larger amplitude's decibel value 20 * log10(a2 / 20e-6) lies strictly above
the floor; when both decibel values fall at or below the floor, both chunks
report exactly the floor and the comparison is an equality, not a strict
inequality. -/
theorem C6_amended_decibel_monotone (v : AudioVisualizer) (n : ℕ)
    (a₁ a₂ : ℝ) (hn : 0 < n) (h₁ : 0 < a₁) (h₁₂ : a₁ < a₂) :
    v.get_decibel_level (List.replicate n a₁) ≤
      v.get_decibel_level (List.replicate n a₂) ∧
    (v.min_db < 20 * Real.logb 10 (a₂ / 20e-6) →
      v.get_decibel_level (List.replicate n a₁) <
        v.get_decibel_level (List.replicate n a₂)) := by
  have h₂ : 0 < a₂ := h₁.trans h₁₂
  rw [get_decibel_level_replicate v hn h₁, get_decibel_level_replicate v hn h₂]
  have hdiv : a₁ / 20e-6 < a₂ / 20e-6 := by gcongr
  have hlog : 20 * Real.logb 10 (a₁ / 20e-6) <
      20 * Real.logb 10 (a₂ / 20e-6) := by
    have hl := Real.logb_lt_logb (b := 10) (by norm_num)
      (div_pos h₁ (by norm_num)) hdiv
    linarith
  refine ⟨max_le_max le_rfl hlog.le, ?_⟩
  intro hfloor
  rw [max_eq_right hfloor.le]
  exact max_lt hfloor hlog

/-- Witness for the amended C6: with the __main__ floor of 40 dB, the
single-sample chunks of amplitudes 2e-5 and 2e-2 compare strictly. -/
theorem C6_amended_decibel_monotone_witness :
    visualizer.get_decibel_level [(2e-5 : ℝ)] <
      visualizer.get_decibel_level [(2e-2 : ℝ)] := by
  have h := (C6_amended_decibel_monotone visualizer 1 (2e-5) (2e-2)
    one_pos (by norm_num) (by norm_num)).2
  rw [List.replicate_one, List.replicate_one] at h
  apply h
  have e : ((2e-2 : ℝ)) / 20e-6 = 1000 := by norm_num
  rw [e]
  have e3 : ((1000 : ℝ)) = 10 ^ (3 : ℕ) := by norm_num
  rw [e3, Real.logb_pow, Real.logb_self_eq_one (by norm_num)]
  have e4 : visualizer.min_db = 40 := rfl
  rw [e4]
  norm_num

/-- Counterexample to C6 as stated: with the __main__ floor of 40 dB, the
constant chunks of amplitudes 2e-5 and 2e-4 satisfy 0 < a1 < a2 yet both
extract to exactly the floor, so strict monotonicity fails. -/
theorem C6_counterexample :
    0 < (2e-5 : ℝ) ∧ (2e-5 : ℝ) < 2e-4 ∧
    visualizer.get_decibel_level [(2e-5 : ℝ)] =
      visualizer.get_decibel_level [(2e-4 : ℝ)] := by
  refine ⟨by norm_num, by norm_num, ?_⟩
  have h1 : visualizer.get_decibel_level [(2e-5 : ℝ)] =
      max visualizer.min_db (20 * Real.logb 10 ((2e-5 : ℝ) / 20e-6)) := by
    rw [← List.replicate_one]
    exact get_decibel_level_replicate visualizer one_pos (by norm_num)
  have h2 : visualizer.get_decibel_level [(2e-4 : ℝ)] =
      max visualizer.min_db (20 * Real.logb 10 ((2e-4 : ℝ) / 20e-6)) := by
    rw [← List.replicate_one]
    exact get_decibel_level_replicate visualizer one_pos (by norm_num)
  rw [h1, h2]
  have e1 : ((2e-5 : ℝ)) / 20e-6 = 1 := by norm_num
  have e2 : ((2e-4 : ℝ)) / 20e-6 = 10 := by norm_num
  rw [e1, e2, Real.logb_one, Real.logb_self_eq_one (by norm_num)]
  have e4 : visualizer.min_db = 40 := rfl
  rw [e4, mul_zero, mul_one,
    max_eq_left (by norm_num : (0 : ℝ) ≤ 40),
    max_eq_left (by norm_num : (20 : ℝ) ≤ 40)]

/-- Evaluation of map_brightness when the denominator is zero. -/
theorem map_brightness_eq_none (v : AudioVisualizer)
    (h : v.max_db - v.min_db = 0) (db : ℝ) :
    v.map_brightness db = none := by
  unfold AudioVisualizer.map_brightness
  show (if v.max_db - v.min_db = 0 then none
    else some (pyInt ((max v.min_db (min v.max_db db) - v.min_db) /
      (v.max_db - v.min_db) * 255))) = none
  rw [if_pos h]

/-- Evaluation of map_brightness when the denominator is nonzero. -/
theorem map_brightness_eq_some (v : AudioVisualizer)
    (h : v.max_db - v.min_db ≠ 0) (db : ℝ) :
    v.map_brightness db =
      some (pyInt ((max v.min_db (min v.max_db db) - v.min_db) /
        (v.max_db - v.min_db) * 255)) := by
  unfold AudioVisualizer.map_brightness
  show (if v.max_db - v.min_db = 0 then none
    else some (pyInt ((max v.min_db (min v.max_db db) - v.min_db) /
      (v.max_db - v.min_db) * 255))) = _
  rw [if_neg h]

/-- Counterexample to C2: constructing with floor 90 ≥ ceiling 40 succeeds —
__init__ performs no validation and raises nothing — and a configuration with
floor == ceiling == 40 does reach the brightness mapper's division at render
time, where the division by zero fails (embedded as none). -/
theorem C2_counterexample :
    (AudioVisualizer.init 300 18 800000 10 false 255 0 0
      44100 512 90 40 200).isOk = true ∧
    AudioVisualizer.map_brightness
      { visualizer with min_db := 40, max_db := 40 } 60 = none :=
  ⟨rfl, map_brightness_eq_none _ (show (40 : ℝ) - 40 = 0 by norm_num) 60⟩

/-- C2 (amended): construction performs no validation and always succeeds,
whatever the floor and ceiling are — nothing is rejected at construction
time — and a configuration with floor == ceiling reaches the brightness
mapper's division at render time, where every brightness request fails with
a division by zero (embedded as none). -/
theorem C2_amended_no_construction_validation
    (lc lp lf ld : ℕ) (li : Bool) (lb lch ls sr cs : ℕ)
    (mi ma se : ℝ) :
    (AudioVisualizer.init lc lp lf ld li lb lch ls sr cs mi ma se).isOk
      = true ∧
    (mi = ma →
      ∀ v, AudioVisualizer.init lc lp lf ld li lb lch ls sr cs mi ma se
          = Except.ok v →
        ∀ db, v.map_brightness db = none) := by
  refine ⟨rfl, ?_⟩
  intro heq v hv db
  have hmm : v.max_db - v.min_db = 0 := by
    unfold AudioVisualizer.init at hv
    have h2 := Except.ok.inj hv
    rw [← h2, heq]
    simp
  exact map_brightness_eq_none v hmm db

/-- Witness for the amended C2: the __main__ configuration with both bounds
set to 40 constructs fine and fails in the mapper. -/
theorem C2_amended_witness :
    (AudioVisualizer.init 300 18 800000 10 false 255 0 0
      44100 512 40 40 200).isOk = true ∧
    AudioVisualizer.map_brightness
      { visualizer with min_db := 40, max_db := 40 } 75 = none :=
  ⟨(C2_amended_no_construction_validation 300 18 800000 10 false 255 0 0
      44100 512 40 40 200).1,
    (C2_amended_no_construction_validation 300 18 800000 10 false 255 0 0
      44100 512 40 40 200).2 rfl
      { visualizer with min_db := 40, max_db := 40 } rfl 75⟩

/-- C3: with floor < ceiling the brightness mapping never fails, returns 0 at
the floor and 255 at the ceiling, agrees with its floor value below the floor
and with its ceiling value above the ceiling, and is monotone non-decreasing
in the loudness. -/
theorem C3_brightness_monotone_clamps (v : AudioVisualizer)
    (h : v.min_db < v.max_db) :
    v.map_brightness v.min_db = some 0 ∧
    v.map_brightness v.max_db = some 255 ∧
    (∀ x, x < v.min_db → v.map_brightness x = v.map_brightness v.min_db) ∧
    (∀ x, v.max_db < x → v.map_brightness x = v.map_brightness v.max_db) ∧
    (∀ db, (v.map_brightness db).isSome = true) ∧
    (∀ d₁ d₂, d₁ ≤ d₂ →
      (v.map_brightness d₁).getD 0 ≤ (v.map_brightness d₂).getD 0) := by
  have hne : v.max_db - v.min_db ≠ 0 := sub_ne_zero.mpr h.ne'
  have hpos : 0 < v.max_db - v.min_db := sub_pos.mpr h
  refine ⟨?_, ?_, ?_, ?_, ?_, ?_⟩
  · rw [map_brightness_eq_some v hne, min_eq_right h.le, max_self,
      sub_self, zero_div, zero_mul]
    norm_num [pyInt]
  · rw [map_brightness_eq_some v hne, min_self, max_eq_right h.le,
      div_self hne, one_mul]
    norm_num [pyInt]
  · intro x hx
    rw [map_brightness_eq_some v hne, map_brightness_eq_some v hne,
      min_eq_right (hx.trans h).le, max_eq_left hx.le,
      min_eq_right h.le, max_self]
  · intro x hx
    rw [map_brightness_eq_some v hne, map_brightness_eq_some v hne,
      min_eq_left hx.le, min_self, max_eq_right h.le]
  · intro db
    rw [map_brightness_eq_some v hne]
    rfl
  · intro d₁ d₂ hd
    rw [map_brightness_eq_some v hne, map_brightness_eq_some v hne]
    have hcl : max v.min_db (min v.max_db d₁) ≤
        max v.min_db (min v.max_db d₂) :=
      max_le_max le_rfl (min_le_min le_rfl hd)
    have harg : (max v.min_db (min v.max_db d₁) - v.min_db) /
          (v.max_db - v.min_db) * 255 ≤
        (max v.min_db (min v.max_db d₂) - v.min_db) /
          (v.max_db - v.min_db) * 255 := by
      gcongr
    exact pyInt_mono harg

/-- Witness for C3 on the __main__ configuration (floor 40, ceiling 90). -/
theorem C3_brightness_monotone_clamps_witness :
    visualizer.map_brightness 40 = some 0 ∧
    visualizer.map_brightness 90 = some 255 ∧
    visualizer.map_brightness 10 = visualizer.map_brightness 40 ∧
    visualizer.map_brightness 100 = visualizer.map_brightness 90 ∧
    (visualizer.map_brightness 63).isSome = true ∧
    (visualizer.map_brightness 50).getD 0 ≤
      (visualizer.map_brightness 60).getD 0 := by
  have h := C3_brightness_monotone_clamps visualizer
    (show (40 : ℝ) < 90 by norm_num)
  have e1 : visualizer.min_db = 40 := rfl
  have e2 : visualizer.max_db = 90 := rfl
  rw [e1, e2] at h
  exact ⟨h.1, h.2.1, h.2.2.1 10 (by norm_num), h.2.2.2.1 100 (by norm_num),
    h.2.2.2.2.1 63, h.2.2.2.2.2 50 60 (by norm_num)⟩

/-- C4: for any positive sensitivity the gradient policy hits the specified
band boundary colours exactly: (0,0,255) at amplitude 0, (0,255,0) at
sensitivity/3, (255,255,0) at 2*sensitivity/3 and (255,0,0) at sensitivity
(the int() truncation introduces no deviation at the exact boundaries). -/
theorem C4_gradient_band_boundaries (s : ℚ) (hs : 0 < s) :
    calculate_color s 0 = (0, 0, 255) ∧
    calculate_color s (s / 3) = (0, 255, 0) ∧
    calculate_color s (2 * s / 3) = (255, 255, 0) ∧
    calculate_color s s = (255, 0, 0) := by
  refine ⟨?_, ?_, ?_, ?_⟩
  · unfold calculate_color
    rw [if_pos (show (0 : ℚ) < s / 3 by positivity)]
    show (0, pyInt (255 * 0 / (s / 3)), 255 - pyInt (255 * 0 / (s / 3)))
      = ((0 : ℤ), 0, 255)
    norm_num [pyInt]
  · unfold calculate_color
    rw [if_neg (lt_irrefl (s / 3)), if_pos (show s / 3 < 2 * s / 3 by linarith)]
    norm_num [pyInt]
  · unfold calculate_color
    rw [if_neg (show ¬(2 * s / 3 < s / 3) by linarith),
      if_neg (lt_irrefl (2 * s / 3))]
    norm_num [pyInt]
  · unfold calculate_color
    rw [if_neg (show ¬(s < s / 3) by linarith),
      if_neg (show ¬(s < 2 * s / 3) by linarith)]
    have h4 : 255 * (s - 2 * s / 3) / (s / 3) = (255 : ℚ) := by
      field_simp
      ring
    rw [h4]
    norm_num [pyInt]

/-- Witness for C4 at the module constant SENSITIVITY = 100. -/
theorem C4_gradient_band_boundaries_witness :
    calculate_color 100 0 = (0, 0, 255) ∧
    calculate_color 100 (100 / 3) = (0, 255, 0) ∧
    calculate_color 100 (2 * 100 / 3) = (255, 255, 0) ∧
    calculate_color 100 100 = (255, 0, 0) :=
  C4_gradient_band_boundaries 100 (by norm_num)

/-- Counterexample to C5: at sensitivity 100 the non-negative amplitude 200
(greater than the sensitivity) makes the unclamped third band drive the green
channel to -765, far outside [0, 255]. -/
theorem C5_counterexample :
    calculate_color 100 200 = (255, -765, 0) ∧ ((-765 : ℤ) < 0) := by
  refine ⟨?_, by norm_num⟩
  unfold calculate_color
  rw [if_neg (by norm_num : ¬((200 : ℚ) < 100 / 3)),
    if_neg (by norm_num : ¬((200 : ℚ) < 2 * 100 / 3))]
  norm_num [pyInt]

/-- C5 (amended): for every amplitude between 0 and the sensitivity
inclusive, all three channels of the gradient policy lie in [0, 255];
above the sensitivity the third band is not clamped and the green channel
goes negative. -/
theorem C5_amended_gradient_range (s a : ℚ) (hs : 0 < s) (h0 : 0 ≤ a)
    (ha : a ≤ s) :
    0 ≤ (calculate_color s a).1 ∧ (calculate_color s a).1 ≤ 255 ∧
    0 ≤ (calculate_color s a).2.1 ∧ (calculate_color s a).2.1 ≤ 255 ∧
    0 ≤ (calculate_color s a).2.2 ∧ (calculate_color s a).2.2 ≤ 255 := by
  have h3 : (0 : ℚ) < s / 3 := by positivity
  by_cases h1 : a < s / 3
  · have hb : calculate_color s a =
        (0, pyInt (255 * a / (s / 3)), 255 - pyInt (255 * a / (s / 3))) := by
      unfold calculate_color
      rw [if_pos h1]
    have hnum : (0 : ℚ) ≤ 255 * a / (s / 3) := by positivity
    have hlt : 255 * a / (s / 3) ≤ 255 := by
      rw [div_le_iff₀ h3]
      linarith
    have hg0 := pyInt_nonneg hnum
    have hg255 : pyInt (255 * a / (s / 3)) ≤ 255 :=
      pyInt_le_of_le_intCast hnum (by exact_mod_cast hlt)
    rw [hb]
    dsimp only
    exact ⟨le_rfl, by norm_num, hg0, hg255, by omega, by omega⟩
  · by_cases h2 : a < 2 * s / 3
    · have hb : calculate_color s a =
          (pyInt (255 * (a - s / 3) / (s / 3)), 255, 0) := by
        unfold calculate_color
        rw [if_neg h1, if_pos h2]
      have h1' := not_lt.mp h1
      have hnum : (0 : ℚ) ≤ 255 * (a - s / 3) / (s / 3) :=
        div_nonneg (by linarith) h3.le
      have hlt : 255 * (a - s / 3) / (s / 3) ≤ 255 := by
        rw [div_le_iff₀ h3]
        linarith
      have hr0 := pyInt_nonneg hnum
      have hr255 : pyInt (255 * (a - s / 3) / (s / 3)) ≤ 255 :=
        pyInt_le_of_le_intCast hnum (by exact_mod_cast hlt)
      rw [hb]
      dsimp only
      exact ⟨hr0, hr255, by norm_num, by norm_num, le_rfl, by norm_num⟩
    · have hb : calculate_color s a =
          (255, 255 - pyInt (255 * (a - 2 * s / 3) / (s / 3)), 0) := by
        unfold calculate_color
        rw [if_neg h1, if_neg h2]
      have h2' := not_lt.mp h2
      have hnum : (0 : ℚ) ≤ 255 * (a - 2 * s / 3) / (s / 3) :=
        div_nonneg (by linarith) h3.le
      have hlt : 255 * (a - 2 * s / 3) / (s / 3) ≤ 255 := by
        rw [div_le_iff₀ h3]
        linarith
      have hg0 := pyInt_nonneg hnum
      have hg255 : pyInt (255 * (a - 2 * s / 3) / (s / 3)) ≤ 255 :=
        pyInt_le_of_le_intCast hnum (by exact_mod_cast hlt)
      rw [hb]
      dsimp only
      exact ⟨by norm_num, le_rfl, by omega, by omega, le_rfl, by norm_num⟩

/-- Witness for the amended C5 at sensitivity 100, amplitude 50. -/
theorem C5_amended_gradient_range_witness :
    0 ≤ (calculate_color 100 50).1 ∧ (calculate_color 100 50).1 ≤ 255 ∧
    0 ≤ (calculate_color 100 50).2.1 ∧ (calculate_color 100 50).2.1 ≤ 255 ∧
    0 ≤ (calculate_color 100 50).2.2 ∧ (calculate_color 100 50).2.2 ≤ 255 :=
  C5_amended_gradient_range 100 50 (by norm_num) (by norm_num) (by norm_num)

/-- Frames committed by one consumer wake when running with a buffered
chunk and a working brightness mapper. -/
theorem update_leds_step_frames (v : AudioVisualizer) (hrun : v.running = true)
    (hlen : 0 < v.audio_data.length) (b : ℤ)
    (hb : v.map_brightness (v.get_decibel_level v.audio_data) = some b) :
    (v.update_leds_step).2 = [List.replicate v.led_count ((0 : ℤ), b, 0)] := by
  simp [AudioVisualizer.update_leds_step, hrun, hb, hlen]

/-- C7: if the producer delivers chunks c₁ then c₂ before the consumer wakes
once, the second delivery overwrites the first in the single-slot buffer, and
the consumer's next wake commits exactly one frame, computed from c₂ — a
frame derived from c₁ is never committed. -/
theorem C7_pipeline_coalesces (v : AudioVisualizer) (c₁ c₂ : List ℝ)
    (hrun : v.running = true) (hne : c₂ ≠ [])
    (hcfg : v.max_db - v.min_db ≠ 0) :
    ((v.audio_callback c₁ false).1.audio_callback c₂ false).1.audio_data
      = c₂ ∧
    ∃ b, v.map_brightness (v.get_decibel_level c₂) = some b ∧
      (((v.audio_callback c₁ false).1.audio_callback c₂
          false).1.update_leds_step).2
        = [List.replicate v.led_count ((0 : ℤ), b, 0)] := by
  refine ⟨rfl, ⟨_, map_brightness_eq_some v hcfg (v.get_decibel_level c₂), ?_⟩⟩
  exact update_leds_step_frames
    { v with audio_data := c₂, audio_event := true } hrun
    (List.length_pos.mpr hne) _
    (map_brightness_eq_some v hcfg (v.get_decibel_level c₂))

/-- Witness for C7: on the __main__ visualizer, deliver [1] then [2] and
wake the consumer once. -/
theorem C7_pipeline_coalesces_witness :
    ((visualizer.audio_callback [1] false).1.audio_callback [2]
      false).1.audio_data = [2] ∧
    ∃ b, visualizer.map_brightness (visualizer.get_decibel_level [2])
        = some b ∧
      (((visualizer.audio_callback [1] false).1.audio_callback [2]
          false).1.update_leds_step).2
        = [List.replicate visualizer.led_count ((0 : ℤ), b, 0)] :=
  C7_pipeline_coalesces visualizer [1] [2] rfl (by simp)
    (by norm_num [visualizer])

/-- C8: a truthy error status makes audio_callback drop the chunk and log
it: the buffered chunk slot, the wake signal and the running flag — indeed
the whole object state — are left unchanged, only the error line is printed,
and the callback returns normally, so the pipeline keeps running. -/
theorem C8_error_status_drops_chunk (v : AudioVisualizer) (indata : List ℝ) :
    (v.audio_callback indata true).1.audio_data = v.audio_data ∧
    (v.audio_callback indata true).1.audio_event = v.audio_event ∧
    (v.audio_callback indata true).1.running = v.running ∧
    (v.audio_callback indata true).1 = v ∧
    (v.audio_callback indata true).2 = ["Error in audio stream"] :=
  ⟨rfl, rfl, rfl, rfl, rfl⟩

/-- Counterexample to C9: in the class variant, a shutdown triggered by a
generic runtime error (the except Exception branch of run) commits no frame
at all — the strip is never blanked — and does not even clear the running
flag. -/
theorem C9_counterexample :
    (visualizer.run_on_termination TermCause.genericError).2 = [] ∧
    (visualizer.run_on_termination TermCause.genericError).1.running
      = true :=
  ⟨rfl, rfl⟩

/-- C9 (amended): after a stop request (running flag cleared) the consumer
commits nothing further; the class variant's KeyboardInterrupt path clears
the running flag and blanks the strip as its final action, and the script
variant blanks the strip on every shutdown path; but the class variant's
generic-error path commits nothing — there the blank-on-every-shutdown-path
guarantee fails. -/
theorem C9_amended_shutdown (v : AudioVisualizer) (cause : TermCause) :
    (v.run_on_termination TermCause.keyboardInterrupt).2 =
      [List.replicate v.led_count ((0 : ℤ), 0, 0)] ∧
    (v.run_on_termination TermCause.keyboardInterrupt).1.running = false ∧
    (v.running = false → (v.update_leds_step).2 = []) ∧
    (v.run_on_termination TermCause.genericError).2 = [] ∧
    light_shutdown_calls cause = (List.range 30).map (fun i => (i, 0)) := by
  refine ⟨rfl, rfl, ?_, rfl, ?_⟩
  · intro hstop
    simp [AudioVisualizer.update_leds_step, hstop]
  · simp [light_shutdown_calls, ws_Color, LED_COUNT]

/-- Witness for the amended C9 on a stopped __main__ visualizer. -/
theorem C9_amended_shutdown_witness :
    (({ visualizer with running := false } :
        AudioVisualizer).update_leds_step).2 = [] ∧
    (({ visualizer with running := false } :
        AudioVisualizer).run_on_termination TermCause.keyboardInterrupt).2 =
      [List.replicate 300 ((0 : ℤ), 0, 0)] ∧
    light_shutdown_calls TermCause.genericError =
      (List.range 30).map (fun i => (i, 0)) := by
  have h := C9_amended_shutdown { visualizer with running := false }
    TermCause.genericError
  exact ⟨h.2.2.1 rfl, h.1, h.2.2.2.2⟩

/-- C10: set_leds in WS281x mode passes each abstract (r, g, b) triple to the
hardware colour constructor with red and green exchanged — the i-th
setPixelColor call carries Color(g, r, b), so on the wire the constructor's
red byte (bits 16-23) holds the abstract green, the green byte (bits 8-15)
holds the abstract red, and blue stays in bits 0-7. -/
theorem C10_set_leds_swaps_red_green (led_data : List (ℕ × ℕ × ℕ))
    (i : ℕ) (r g b : ℕ) (h : led_data[i]? = some (r, g, b))
    (hr : r < 256) (hg : g < 256) (hb : b < 256) :
    (set_leds led_data)[i]? = some (i, ws_Color g r b) ∧
    ws_Color g r b / 2 ^ 16 % 256 = g ∧
    ws_Color g r b / 2 ^ 8 % 256 = r ∧
    ws_Color g r b % 2 ^ 8 = b := by
  refine ⟨?_, ?_, ?_, ?_⟩
  · unfold set_leds
    rw [List.getElem?_map, List.getElem?_enum, h]
    rfl
  · unfold ws_Color
    omega
  · unfold ws_Color
    omega
  · unfold ws_Color
    omega

/-- Witness for C10 on the one-pixel frame [(1, 2, 3)]. -/
theorem C10_set_leds_swaps_red_green_witness :
    (set_leds [(1, 2, 3)])[0]? = some (0, ws_Color 2 1 3) ∧
    ws_Color 2 1 3 / 2 ^ 16 % 256 = 2 ∧
    ws_Color 2 1 3 / 2 ^ 8 % 256 = 1 ∧
    ws_Color 2 1 3 % 2 ^ 8 = 3 :=
  C10_set_leds_swaps_red_green [(1, 2, 3)] 0 1 2 3 rfl
    (by norm_num) (by norm_num) (by norm_num)
